import Mathlib

/-!
Verification of the LUDI Verifier core engine (`src/LUDI_VERIFIER.py`).

The development shallowly embeds the three functions of the source —
`calculate_content_hash`, `simulate_blockchain_timestamp` and
`run_ludi_verification` — together with a byte-level model of
`hashlib.sha256` (message padding, schedule, compression, hex digest),
and proves the spec's testable properties about them.

Modelling conventions:
* bytes and 32-bit words are `Nat` with explicit reduction `% 2^32`;
* the file system is a map from paths to a `FileState` recording whether
  `os.path.exists` holds, the byte content, whether (and at which `read`
  call) an I/O exception is raised, and the exception's display text;
* `hashlib.new(hash_algorithm)` followed by `update`/`hexdigest` is
  modelled by a digest function `List Nat → String` applied to the byte
  stream absorbed by the read loop (`sha256hex` for the default
  `'sha256'` selector);
* the wall clock (`datetime.datetime.utcnow().isoformat()` and
  `int(time.time())`) is passed in as explicit parameters;
* Python's `while True: chunk = f.read(65536); ...` loop is embedded as a
  structurally recursive function whose fuel argument is a termination
  bound (one more than the byte count, enough for every read the loop
  performs);
* a returned record (a Python `dict` literal) is a key/value list in the
  source's construction order; `print` diagnostics are returned as an
  explicit message list.
-/

namespace LUDI

/-! ### SHA-256 over `Nat` (model of `hashlib.sha256`) -/

/-- Reduce to a 32-bit word. -/
def w32 (x : Nat) : Nat := x % 4294967296

/-- Right rotation of a 32-bit word. -/
def rotr (n x : Nat) : Nat := w32 ((x >>> n) ||| (x <<< (32 - n)))

/-- SHA-256 big sigma 0. -/
def bigSigma0 (x : Nat) : Nat := rotr 2 x ^^^ rotr 13 x ^^^ rotr 22 x

/-- SHA-256 big sigma 1. -/
def bigSigma1 (x : Nat) : Nat := rotr 6 x ^^^ rotr 11 x ^^^ rotr 25 x

/-- SHA-256 small sigma 0. -/
def smallSigma0 (x : Nat) : Nat := rotr 7 x ^^^ rotr 18 x ^^^ (x >>> 3)

/-- SHA-256 small sigma 1. -/
def smallSigma1 (x : Nat) : Nat := rotr 17 x ^^^ rotr 19 x ^^^ (x >>> 10)

/-- SHA-256 choose function; the complement is XOR with the all-ones word. -/
def chFn (x y z : Nat) : Nat := (x &&& y) ^^^ ((x ^^^ 4294967295) &&& z)

/-- SHA-256 majority function. -/
def majFn (x y z : Nat) : Nat := (x &&& y) ^^^ (x &&& z) ^^^ (y &&& z)

/-- The 64 SHA-256 round constants of FIPS 180-4, in decimal. -/
def K : List Nat :=
  [1116352408, 1899447441, 3049323471, 3921009573, 961987163,
   1508970993, 2453635748, 2870763221, 3624381080, 310598401,
   607225278, 1426881987, 1925078388, 2162078206, 2614888103,
   3248222580, 3835390401, 4022224774, 264347078, 604807628,
   770255983, 1249150122, 1555081692, 1996064986, 2554220882,
   2821834349, 2952996808, 3210313671, 3336571891, 3584528711,
   113926993, 338241895, 666307205, 773529912, 1294757372,
   1396182291, 1695183700, 1986661051, 2177026350, 2456956037,
   2730485921, 2820302411, 3259730800, 3345764771, 3516065817,
   3600352804, 4094571909, 275423344, 430227734, 506948616,
   659060556, 883997877, 958139571, 1322822218, 1537002063,
   1747873779, 1955562222, 2024104815, 2227730452, 2361852424,
   2428436474, 2756734187, 3204031479, 3329325298]

/-- The initial SHA-256 hash value of FIPS 180-4, in decimal. -/
def H0 : List Nat :=
  [1779033703, 3144134277, 1013904242, 2773480762,
   1359893119, 2600822924, 528734635, 1541459225]

/-- Next message-schedule word, given the already computed words most
recent first. -/
def nextW (rev : List Nat) : Nat :=
  w32 (smallSigma1 (rev.getD 1 0) + rev.getD 6 0 + smallSigma0 (rev.getD 14 0) + rev.getD 15 0)

/-- Extend the reversed schedule by the given number of words. -/
def buildSchedule : Nat → List Nat → List Nat
  | 0, rev => rev.reverse
  | n + 1, rev => buildSchedule n (nextW rev :: rev)

/-- The 64-word message schedule of a 16-word block. -/
def schedule (block : List Nat) : List Nat := buildSchedule 48 block.reverse

/-- One SHA-256 round on the eight working variables. -/
def roundStep (st : List Nat) (kw : Nat × Nat) : List Nat :=
  match st with
  | [a, b, c, d, e, f, g, h] =>
    let t1 := w32 (h + bigSigma1 e + chFn e f g + kw.1 + kw.2)
    let t2 := w32 (bigSigma0 a + majFn a b c)
    [w32 (t1 + t2), a, b, c, w32 (d + t1), e, f, g]
  | _ => st

/-- SHA-256 compression of one 16-word block into the hash value. -/
def compress (h : List Nat) (block : List Nat) : List Nat :=
  let st := (K.zip (schedule block)).foldl roundStep h
  List.zipWith (fun x y => w32 (x + y)) h st

/-- Big-endian bytes of a number, fixed width. -/
def toBytesBE : Nat → Nat → List Nat
  | 0, _ => []
  | n + 1, x => toBytesBE n (x / 256) ++ [x % 256]

/-- SHA-256 message padding: `0x80`, zeros to 56 mod 64, then the
64-bit big-endian bit length. -/
def padBytes (msg : List Nat) : List Nat :=
  msg ++ 0x80 :: (List.replicate ((64 - (msg.length + 9) % 64) % 64) 0 ++ toBytesBE 8 (8 * msg.length))

/-- Big-endian 32-bit words of a byte list. -/
def bytesToWords : List Nat → List Nat
  | a :: b :: c :: d :: rest => (((a * 256 + b) * 256 + c) * 256 + d) :: bytesToWords rest
  | _ => []

/-- Split padded bytes into 16-word blocks; the fuel argument is a
termination bound (the byte count suffices since each step consumes 64
bytes). -/
def toBlocksGo : Nat → List Nat → List (List Nat)
  | 0, _ => []
  | _, [] => []
  | fuel + 1, bytes => bytesToWords (bytes.take 64) :: toBlocksGo fuel (bytes.drop 64)

/-- The 16-word blocks of a padded message. -/
def toBlocks (bytes : List Nat) : List (List Nat) := toBlocksGo bytes.length bytes

/-- The eight 32-bit words of the SHA-256 digest of a byte message. -/
def sha256Words (msg : List Nat) : List Nat :=
  (toBlocks (padBytes msg)).foldl compress H0

/-- Lowercase hexadecimal digit. -/
def hexChar (n : Nat) : Char :=
  if n < 10 then Char.ofNat (48 + n) else Char.ofNat (87 + n)

/-- The two lowercase hex digits of a byte. -/
def byteToHex (b : Nat) : List Char := [hexChar (b / 16), hexChar (b % 16)]

/-- Lowercase hex string of a byte list. -/
def bytesToHexString (bs : List Nat) : String := String.mk ((bs.map byteToHex).flatten)

/-- `hashlib.sha256(msg).hexdigest()`: the lowercase hex SHA-256 digest. -/
def sha256hex (msg : List Nat) : String :=
  bytesToHexString (((sha256Words msg).map (toBytesBE 4)).flatten)

/-- A character of the lowercase hexadecimal alphabet. -/
def isLowerHexChar (c : Char) : Bool := "0123456789abcdef".data.contains c

/-- A string made only of lowercase hexadecimal digits. -/
def isLowerHex (s : String) : Bool := s.data.all isLowerHexChar

/-! ### The file-system and I/O model -/

/-- What the engine can observe of one path: whether `os.path.exists`
holds, the byte content, at which `read` call (if any) an I/O exception
is raised, and the exception's display text `str(e)`. -/
structure FileState where
  path_exists : Bool
  content : List Nat
  failAt : Option Nat
  errText : String

/-- The reference chunk size of the read loop, `f.read(65536)`. -/
def CHUNK_SIZE : Nat := 65536

/-- The `while True` read loop of `calculate_content_hash`: each
iteration reads up to 64 KiB, stops on an empty read, folds the chunk
into the absorbed stream otherwise, and raises (`Except.error`) when the
failing read is reached. The fuel argument is a termination bound. -/
def readLoopGo : Nat → List Nat → List Nat → Option Nat → Except Unit (List Nat)
  | 0, acc, _, _ => .ok acc
  | fuel + 1, acc, rest, failAt =>
    if failAt = some 0 then .error ()
    else
      let chunk := rest.take CHUNK_SIZE
      if chunk.isEmpty then .ok acc
      else readLoopGo fuel (acc ++ chunk) (rest.drop CHUNK_SIZE) (failAt.map (· - 1))

/-- The read loop started with enough fuel for every read it performs. -/
def readLoop (acc rest : List Nat) (failAt : Option Nat) : Except Unit (List Nat) :=
  readLoopGo (rest.length + 1) acc rest failAt

/-- The diagnostic printed when the source file does not exist. -/
def notFoundMessage (file_path : String) : String :=
  "[ERROR] 파일을 찾을 수 없습니다: " ++ file_path

/-- The diagnostic printed when reading the source file raises. -/
def ioErrorMessage (e : String) : String :=
  "[ERROR] 파일 처리 중 오류 발생: " ++ e

/-! ### The three source functions -/

/-- `calculate_content_hash(file_path, hash_algorithm)`: `None` with a
not-found diagnostic when the path does not exist; otherwise the file is
read in 64 KiB chunks into the hash state and the hex digest is
returned, except that an I/O exception yields `None` with an error
diagnostic. `hashAlg` is the digest function selected by the
`hash_algorithm` parameter (default `sha256hex`). The result pairs the
return value with the printed error diagnostics. -/
def calculate_content_hash (file_path : String) (fs : String → FileState)
    (hashAlg : List Nat → String) : Option String × List String :=
  if (fs file_path).path_exists = false then
    (none, [notFoundMessage file_path])
  else
    match readLoop [] (fs file_path).content (fs file_path).failAt with
    | .error _ => (none, [ioErrorMessage (fs file_path).errText])
    | .ok data => (some (hashAlg data), [])

/-- One field value of the result record. -/
inductive JVal where
  | s (v : String)
  | i (v : Int)
deriving DecidableEq, Repr

/-- `simulate_blockchain_timestamp(content_hash)`: the result `dict` in
the source's construction order. `utc_iso` is
`datetime.datetime.utcnow().isoformat()` and `unix` is
`int(time.time())`, both captured from the ambient clock. -/
def simulate_blockchain_timestamp (content_hash utc_iso : String) (unix : Int) :
    List (String × JVal) :=
  [("verifier_name", .s "LUDI_Verifier_PoC_V1.0"),
   ("hash_algorithm", .s "SHA-256"),
   ("content_hash", .s content_hash),
   ("timestamp_utc", .s (utc_iso ++ "Z")),
   ("timestamp_unix", .i unix),
   ("blockchain_block", .s "Simulated Block ID: 1A2B3C4D5E"),
   ("verification_status", .s "AUTHENTICITY_REGISTERED")]

/-- `run_ludi_verification(file_path)`: hash the file with the default
`'sha256'` algorithm; on a falsy result (`None` or the empty string,
Python's `if not content_hash`) construct no record; otherwise return
the record built by `simulate_blockchain_timestamp`. -/
def run_ludi_verification (file_path : String) (fs : String → FileState)
    (utc_iso : String) (unix : Int) : Option (List (String × JVal)) :=
  match (calculate_content_hash file_path fs sha256hex).1 with
  | none => none
  | some content_hash =>
    if content_hash = "" then none
    else some (simulate_blockchain_timestamp content_hash utc_iso unix)

/-! ### The anchoring collaborator interface -/

/-- Modelled from the spec: the failure of the anchoring collaborator
(`AnchorUnavailable`, spec sections 4.2, 6 and 7). The repository holds
only the always-succeeding stub `simulate_blockchain_timestamp`; the
fallible collaborator it stands in for is not under `src/`. -/
inductive AnchorError where
  | anchorUnavailable
deriving DecidableEq, Repr

/-- Modelled from the spec: the record builder over the anchoring
collaborator interface `anchor(digest) -> Result<AnchorReference,
AnchorUnavailable>` (spec section 6). A collaborator failure propagates
and no record is assembled; on success the record is assembled exactly
as the source's `simulate_blockchain_timestamp` does, with the returned
anchor reference as `blockchain_block`. -/
def build_record_with_anchoring (anchor : String → Except AnchorError String)
    (content_hash utc_iso : String) (unix : Int) :
    Except AnchorError (List (String × JVal)) :=
  match anchor content_hash with
  | .error e => .error e
  | .ok anchor_ref =>
    .ok [("verifier_name", .s "LUDI_Verifier_PoC_V1.0"),
         ("hash_algorithm", .s "SHA-256"),
         ("content_hash", .s content_hash),
         ("timestamp_utc", .s (utc_iso ++ "Z")),
         ("timestamp_unix", .i unix),
         ("blockchain_block", .s anchor_ref),
         ("verification_status", .s "AUTHENTICITY_REGISTERED")]

/-- The anchoring behaviour hard-coded in the source's stub: always
succeed with the fixed placeholder reference. -/
def stubAnchor : String → Except AnchorError String :=
  fun _ => .ok "Simulated Block ID: 1A2B3C4D5E"

/-! ### Concrete file systems used as test fixtures -/

/-- Every path holds the three bytes `"abc"` and reads succeed. -/
def abcFS : String → FileState := fun _ => ⟨true, [97, 98, 99], none, ""⟩

/-- Every path holds `"abc"` and reads succeed; physically distinct from
`abcFS` (different exception text) but byte-identical. -/
def abcFS2 : String → FileState := fun _ => ⟨true, [97, 98, 99], none, "other"⟩

/-- Every path holds the empty file and reads succeed. -/
def emptyFS : String → FileState := fun _ => ⟨true, [], none, ""⟩

/-- No path exists. -/
def missingFS : String → FileState := fun _ => ⟨false, [], none, ""⟩

/-- Every path exists but its very first read raises. -/
def failingFS : String → FileState := fun _ => ⟨true, [97], some 0, "Permission denied"⟩

/-! ### Helper lemmas about the read loop -/

/-- With no failing read and enough fuel, the loop absorbs exactly the
remaining bytes after the already absorbed ones. -/
theorem readLoopGo_none : ∀ (fuel : Nat) (acc rest : List Nat), rest.length < fuel →
    readLoopGo fuel acc rest none = .ok (acc ++ rest) := by
  intro fuel
  induction fuel with
  | zero => intro acc rest h; omega
  | succ n ih =>
    intro acc rest h
    rw [readLoopGo, if_neg (by simp)]
    cases rest with
    | nil => simp
    | cons x xs =>
      have hne : ((x :: xs).take CHUNK_SIZE).isEmpty = false := by
        rw [List.isEmpty_eq_false]
        simp [List.take_eq_nil_iff, CHUNK_SIZE]
      simp only [hne, Bool.false_eq_true, if_false]
      have hlt : ((x :: xs).drop CHUNK_SIZE).length < n := by
        have hc : 0 < CHUNK_SIZE := by rw [CHUNK_SIZE]; omega
        rw [List.length_drop, List.length_cons]
        rw [List.length_cons] at h
        omega
      rw [show (Option.map (fun v => v - 1) (none : Option Nat)) = none from rfl, ih _ _ hlt]
      rw [List.append_assoc, List.take_append_drop]

/-- The read loop with no failing read absorbs the whole content. -/
theorem readLoop_none (acc rest : List Nat) :
    readLoop acc rest none = .ok (acc ++ rest) :=
  readLoopGo_none _ acc rest (Nat.lt_succ_self _)

/-- If the failing read happens while bytes are still being delivered
(the first `k` reads all return data), the loop raises. -/
theorem readLoopGo_fail : ∀ (fuel k : Nat) (acc rest : List Nat),
    k * CHUNK_SIZE ≤ rest.length → k < fuel →
    readLoopGo fuel acc rest (some k) = .error () := by
  intro fuel
  induction fuel with
  | zero => intro k acc rest _ h; omega
  | succ n ih =>
    intro k acc rest hk hf
    match k with
    | 0 => rw [readLoopGo, if_pos rfl]
    | j + 1 =>
      rw [readLoopGo, if_neg (by simp)]
      have hlen : CHUNK_SIZE ≤ rest.length := by
        have : CHUNK_SIZE ≤ (j + 1) * CHUNK_SIZE := by
          calc CHUNK_SIZE = 1 * CHUNK_SIZE := (Nat.one_mul _).symm
          _ ≤ (j + 1) * CHUNK_SIZE := Nat.mul_le_mul_right _ (by omega)
        omega
      cases rest with
      | nil => rw [CHUNK_SIZE] at hlen; simp at hlen
      | cons x xs =>
        have hne : ((x :: xs).take CHUNK_SIZE).isEmpty = false := by
          rw [List.isEmpty_eq_false]
          simp [List.take_eq_nil_iff, CHUNK_SIZE]
        simp only [hne, Bool.false_eq_true, if_false]
        have hmap : (some (j + 1)).map (· - 1) = some j := rfl
        rw [hmap]
        apply ih j
        · rw [List.length_drop]
          have : (j + 1) * CHUNK_SIZE = j * CHUNK_SIZE + CHUNK_SIZE := Nat.succ_mul _ _
          omega
        · omega

/-- The read loop raises when the failing read is reached while bytes
remain. -/
theorem readLoop_fail (k : Nat) (acc rest : List Nat)
    (hk : k * CHUNK_SIZE ≤ rest.length) :
    readLoop acc rest (some k) = .error () := by
  apply readLoopGo_fail _ _ _ _ hk
  have : k ≤ k * CHUNK_SIZE := by
    calc k = k * 1 := (Nat.mul_one _).symm
    _ ≤ k * CHUNK_SIZE := Nat.mul_le_mul_left _ (by rw [CHUNK_SIZE]; omega)
  omega

/-! ### Helper lemmas about `calculate_content_hash` -/

/-- Successful run of the fingerprint engine: the digest of the whole
content, and no diagnostic. -/
theorem calculate_content_hash_ok (file_path : String) (fs : String → FileState)
    (alg : List Nat → String)
    (hx : (fs file_path).path_exists = true) (hf : (fs file_path).failAt = none) :
    calculate_content_hash file_path fs alg = (some (alg ((fs file_path).content)), []) := by
  rw [calculate_content_hash, if_neg (by rw [hx]; simp), hf, readLoop_none]
  rfl

/-- Any digest the engine returns is the selected algorithm applied to
some absorbed byte stream. -/
theorem calculate_content_hash_some (file_path : String) (fs : String → FileState)
    (alg : List Nat → String) (s : String)
    (h : (calculate_content_hash file_path fs alg).1 = some s) :
    ∃ data, s = alg data := by
  rw [calculate_content_hash] at h
  by_cases hx : (fs file_path).path_exists = false
  · rw [if_pos hx] at h
    simp at h
  · rw [if_neg hx] at h
    cases hr : readLoop [] (fs file_path).content (fs file_path).failAt with
    | error e =>
      rw [hr] at h
      simp at h
    | ok data =>
      rw [hr] at h
      simp at h
      exact ⟨data, h.symm⟩

/-! ### Helper lemmas about the hex digest -/

/-- Big-endian byte decomposition yields bytes. -/
theorem toBytesBE_lt : ∀ (n x b : Nat), b ∈ toBytesBE n x → b < 256 := by
  intro n
  induction n with
  | zero => intro x b hb; simp [toBytesBE] at hb
  | succ m ih =>
    intro x b hb
    rw [toBytesBE] at hb
    rcases List.mem_append.mp hb with h | h
    · exact ih _ _ h
    · simp at h
      omega

/-- Hex digits of values below 16 are lowercase hexadecimal characters. -/
theorem hexChar_lower : ∀ m, m < 16 → isLowerHexChar (hexChar m) = true := by decide

/-- Both hex digits of a byte are lowercase hexadecimal characters. -/
theorem byteToHex_lower (b : Nat) (hb : b < 256) :
    ∀ c ∈ byteToHex b, isLowerHexChar c = true := by
  intro c hc
  rw [byteToHex] at hc
  simp at hc
  rcases hc with h | h
  · rw [h]; exact hexChar_lower _ (by omega)
  · rw [h]; exact hexChar_lower _ (Nat.mod_lt _ (by omega))

/-- The SHA-256 hex digest is a lowercase hexadecimal string. -/
theorem sha256hex_lower (msg : List Nat) : isLowerHex (sha256hex msg) = true := by
  rw [sha256hex, bytesToHexString, isLowerHex]
  rw [show (String.mk ((((sha256Words msg).map (toBytesBE 4)).flatten.map byteToHex).flatten)).data
      = (((sha256Words msg).map (toBytesBE 4)).flatten.map byteToHex).flatten from rfl]
  rw [List.all_eq_true]
  intro c hc
  rw [List.mem_flatten] at hc
  obtain ⟨l, hl, hcl⟩ := hc
  rw [List.mem_map] at hl
  obtain ⟨b, hb, rfl⟩ := hl
  apply byteToHex_lower b ?_ c hcl
  rw [List.mem_flatten] at hb
  obtain ⟨bl, hbl, hbbl⟩ := hb
  rw [List.mem_map] at hbl
  obtain ⟨w, _, rfl⟩ := hbl
  exact toBytesBE_lt 4 w b hbbl

/-! ### Helper lemmas about diagnostics and the anchoring model -/

/-- The not-found diagnostic never coincides with the I/O-error
diagnostic: they differ at character index 10 of their fixed openings. -/
theorem notFoundMessage_ne_ioErrorMessage (p e : String) :
    notFoundMessage p ≠ ioErrorMessage e := by
  intro h
  have h10 := congrArg (fun s => s.data[10]?) h
  simp only [notFoundMessage, ioErrorMessage, String.data_append] at h10
  rw [List.getElem?_append_left (by decide), List.getElem?_append_left (by decide)] at h10
  exact absurd h10 (by decide)

/-- The spec-modelled record builder run against the source's stub
behaviour returns exactly the record `simulate_blockchain_timestamp`
builds. -/
theorem build_record_stub_eq_simulate (content_hash utc_iso : String) (unix : Int) :
    build_record_with_anchoring stubAnchor content_hash utc_iso unix
      = .ok (simulate_blockchain_timestamp content_hash utc_iso unix) := rfl

/-! ### The claims -/

/-- Claim C1, counterexample: verifying the fixed three-byte content `"abc"`
succeeds, but the produced record's `verification_status` field is not the
string `"REGISTERED"` — the source sets it to `"AUTHENTICITY_REGISTERED"`. -/
theorem C1_status_counterexample :
    ∃ rec, run_ludi_verification "abc.txt" abcFS "2025-01-01T00:00:00" 1735689600 = some rec
      ∧ rec.lookup "verification_status" ≠ some (JVal.s "REGISTERED") :=
  ⟨simulate_blockchain_timestamp (sha256hex [97, 98, 99]) "2025-01-01T00:00:00" 1735689600,
    rfl, by decide⟩

/-- Claim C1, amended: a successful verification of the fixed three-byte
content `"abc"` yields a record whose `content_hash` is the known SHA-256
digest `ba7816…15ad`, whose `hash_algorithm` is `"SHA-256"`, and whose
`verification_status` is `"AUTHENTICITY_REGISTERED"` (the value the source
writes; the plain string `"REGISTERED"` never occurs). -/
theorem C1_abc_verification (utc_iso : String) (unix : Int) :
    ∃ rec, run_ludi_verification "abc.txt" abcFS utc_iso unix = some rec ∧
      rec.lookup "content_hash"
        = some (JVal.s "ba7816bf8f01cfea414140de5dae2223b00361a396177a9cb410ff61f20015ad") ∧
      rec.lookup "hash_algorithm" = some (JVal.s "SHA-256") ∧
      rec.lookup "verification_status" = some (JVal.s "AUTHENTICITY_REGISTERED") :=
  ⟨simulate_blockchain_timestamp (sha256hex [97, 98, 99]) utc_iso unix, rfl, rfl, rfl, rfl⟩

/-- Claim C2: every record the pipeline produces has exactly the seven
canonical fields, in the source's construction order, with `content_hash` a
lowercase hex string, `timestamp_utc` the captured isoformat clock string with
the UTC designator `"Z"` appended, `timestamp_unix` the captured integer
seconds, and the remaining fields strings. -/
theorem C2_record_shape (file_path utc_iso : String) (unix : Int)
    (fs : String → FileState) (rec : List (String × JVal))
    (h : run_ludi_verification file_path fs utc_iso unix = some rec) :
    rec.map Prod.fst = ["verifier_name", "hash_algorithm", "content_hash",
      "timestamp_utc", "timestamp_unix", "blockchain_block", "verification_status"] ∧
    (∃ d, rec.lookup "content_hash" = some (JVal.s d) ∧ isLowerHex d = true) ∧
    rec.lookup "timestamp_utc" = some (JVal.s (utc_iso ++ "Z")) ∧
    rec.lookup "timestamp_unix" = some (JVal.i unix) ∧
    rec.lookup "verifier_name" = some (JVal.s "LUDI_Verifier_PoC_V1.0") ∧
    rec.lookup "hash_algorithm" = some (JVal.s "SHA-256") ∧
    rec.lookup "blockchain_block" = some (JVal.s "Simulated Block ID: 1A2B3C4D5E") ∧
    rec.lookup "verification_status" = some (JVal.s "AUTHENTICITY_REGISTERED") := by
  rw [run_ludi_verification] at h
  cases hc : (calculate_content_hash file_path fs sha256hex).1 with
  | none => rw [hc] at h; simp at h
  | some d =>
    rw [hc] at h
    have h' : (if d = "" then none
        else some (simulate_blockchain_timestamp d utc_iso unix)) = some rec := h
    by_cases hd : d = ""
    · rw [if_pos hd] at h'; simp at h'
    · rw [if_neg hd] at h'
      obtain ⟨data, rfl⟩ := calculate_content_hash_some _ _ _ _ hc
      have hrec : rec = simulate_blockchain_timestamp (sha256hex data) utc_iso unix :=
        (Option.some.inj h').symm
      subst hrec
      exact ⟨rfl, ⟨sha256hex data, rfl, sha256hex_lower data⟩, rfl, rfl, rfl, rfl, rfl, rfl⟩

/-- Claim C2, witness: the field set of a concrete successful run. -/
theorem C2_record_shape_witness :
    (simulate_blockchain_timestamp (sha256hex [97, 98, 99]) "T" 0).map Prod.fst
      = ["verifier_name", "hash_algorithm", "content_hash", "timestamp_utc",
         "timestamp_unix", "blockchain_block", "verification_status"] :=
  (C2_record_shape "abc.txt" "T" 0 abcFS _ rfl).1

/-- Claim C3: a source that does not exist yields no digest from
`calculate_content_hash` (for any algorithm selector) and no record from
`run_ludi_verification`. -/
theorem C3_not_found (file_path utc_iso : String) (unix : Int)
    (fs : String → FileState) (alg : List Nat → String)
    (h : (fs file_path).path_exists = false) :
    (calculate_content_hash file_path fs alg).1 = none ∧
    run_ludi_verification file_path fs utc_iso unix = none := by
  have hc : ∀ g : List Nat → String, (calculate_content_hash file_path fs g).1 = none := by
    intro g
    rw [calculate_content_hash, if_pos h]
  refine ⟨hc alg, ?_⟩
  rw [run_ludi_verification, hc sha256hex]

/-- Claim C3, witness: a concrete missing path. -/
theorem C3_not_found_witness :
    (calculate_content_hash "ghost.txt" missingFS sha256hex).1 = none ∧
    run_ludi_verification "ghost.txt" missingFS "T" 0 = none :=
  C3_not_found "ghost.txt" "T" 0 missingFS sha256hex rfl

/-- Claim C4: determinism of the fingerprint engine — an error-free run
returns the digest of the source bytes under the selected algorithm, so two
runs over byte-identical sources (possibly through different paths and file
systems) return the identical digest; the embedding threads no state between
runs, so no caching can mask a change. -/
theorem C4_determinism (p1 p2 : String) (fs1 fs2 : String → FileState)
    (alg : List Nat → String)
    (hx1 : (fs1 p1).path_exists = true) (hf1 : (fs1 p1).failAt = none)
    (hx2 : (fs2 p2).path_exists = true) (hf2 : (fs2 p2).failAt = none)
    (hb : (fs1 p1).content = (fs2 p2).content) :
    (calculate_content_hash p1 fs1 alg).1 = some (alg ((fs1 p1).content)) ∧
    (calculate_content_hash p1 fs1 alg).1 = (calculate_content_hash p2 fs2 alg).1 := by
  rw [calculate_content_hash_ok p1 fs1 alg hx1 hf1,
    calculate_content_hash_ok p2 fs2 alg hx2 hf2, hb]
  exact ⟨rfl, rfl⟩

/-- Claim C4, witness: two byte-identical `"abc"` sources through physically
distinct file systems hash to the same digest. -/
theorem C4_determinism_witness :
    (calculate_content_hash "a.txt" abcFS sha256hex).1
      = (calculate_content_hash "b.txt" abcFS2 sha256hex).1 :=
  (C4_determinism "a.txt" "b.txt" abcFS abcFS2 sha256hex rfl rfl rfl rfl rfl).2

/-- Claim C5: a zero-length source hashes to the SHA-256 digest of the empty
byte sequence, `e3b0…b855`. -/
theorem C5_empty_digest :
    sha256hex [] = "e3b0c44298fc1c149afbf4c8996fb92427ae41e4649b934ca495991b7852b855" ∧
    (calculate_content_hash "empty.txt" emptyFS sha256hex).1
      = some "e3b0c44298fc1c149afbf4c8996fb92427ae41e4649b934ca495991b7852b855" :=
  ⟨rfl, rfl⟩

/-- Claim C6: the 64 KiB-chunked read loop absorbs exactly the whole byte
content, so for every byte sequence the digest produced by the chunked run of
`calculate_content_hash` equals the whole-input SHA-256 hash of that
sequence. -/
theorem C6_chunked_eq_whole (content : List Nat) :
    readLoop [] content none = Except.ok content ∧
    (calculate_content_hash "f" (fun _ => ⟨true, content, none, ""⟩) sha256hex).1
      = some (sha256hex content) := by
  constructor
  · rw [readLoop_none, List.nil_append]
  · rw [calculate_content_hash_ok _ _ _ rfl rfl]

/-- Claim C7: an I/O error raised while the source is still delivering bytes
makes the engine return `None` — the partial hashing state is discarded and
never returned as a digest. -/
theorem C7_read_error (file_path : String) (fs : String → FileState)
    (alg : List Nat → String) (k : Nat)
    (hx : (fs file_path).path_exists = true)
    (hk : (fs file_path).failAt = some k)
    (hmid : k * CHUNK_SIZE ≤ (fs file_path).content.length) :
    (calculate_content_hash file_path fs alg).1 = none ∧
    ∀ d : String, (calculate_content_hash file_path fs alg).1 ≠ some d := by
  have h : (calculate_content_hash file_path fs alg).1 = none := by
    rw [calculate_content_hash, if_neg (by rw [hx]; simp), hk, readLoop_fail _ _ _ hmid]
  exact ⟨h, fun d hd => by rw [h] at hd; exact Option.noConfusion hd⟩

/-- Claim C7, witness: a source whose very first read raises yields no
digest. -/
theorem C7_read_error_witness :
    (calculate_content_hash "locked.txt" failingFS sha256hex).1 = none :=
  (C7_read_error "locked.txt" failingFS sha256hex 0 rfl rfl (by decide)).1

/-- Claim C8: if the anchoring collaborator reports unavailability for a
digest, the record-building request fails with `AnchorUnavailable` and no
record — in particular none in `REGISTERED` status — is produced
(spec-modelled collaborator interface; the source holds only the
always-succeeding stub). -/
theorem C8_anchor_unavailable (anchor : String → Except AnchorError String)
    (content_hash utc_iso : String) (unix : Int)
    (h : anchor content_hash = .error .anchorUnavailable) :
    build_record_with_anchoring anchor content_hash utc_iso unix
      = .error .anchorUnavailable ∧
    ∀ rec, build_record_with_anchoring anchor content_hash utc_iso unix ≠ .ok rec := by
  have he : build_record_with_anchoring anchor content_hash utc_iso unix
      = .error .anchorUnavailable := by
    rw [build_record_with_anchoring, h]
  exact ⟨he, fun rec hrec => by rw [he] at hrec; exact Except.noConfusion hrec⟩

/-- Claim C8, witness: an always-unavailable collaborator fails the request. -/
theorem C8_anchor_unavailable_witness :
    build_record_with_anchoring (fun _ => .error .anchorUnavailable) "d" "T" 0
      = .error .anchorUnavailable :=
  (C8_anchor_unavailable (fun _ => .error .anchorUnavailable) "d" "T" 0 rfl).1

/-- Claim C9, counterexample: a missing source (`NotFound`) and a source whose
first read raises (`IOFailure`) both make `calculate_content_hash` return the
value `None` — two different failure kinds collapse to an indistinguishable
returned result, so the claim as stated fails for the function's return
value. -/
theorem C9_collapsed_counterexample :
    (missingFS "a.txt").path_exists = false ∧
    (failingFS "b.txt").path_exists = true ∧
    (failingFS "b.txt").failAt = some 0 ∧
    (calculate_content_hash "a.txt" missingFS sha256hex).1 = none ∧
    (calculate_content_hash "b.txt" failingFS sha256hex).1 = none :=
  ⟨rfl, rfl, rfl, rfl, rfl⟩

/-- Claim C9, amended: every failure is reported, and the *diagnostics*
distinguish the kinds — the not-found path prints exactly the not-found
message, the I/O-failure path prints exactly the I/O-error message, and these
messages differ for all inputs; no failure is downgraded: whenever the engine
returns `None`, the pipeline produces no record. (What the original claim gets
wrong: the returned value itself is `None` for both `NotFound` and
`IOFailure`, so the caller distinguishes them only through the diagnostics;
`AnchorUnavailable` is distinguished by the spec-modelled collaborator's error
channel, see the C8 theorem.) -/
theorem C9_failure_reporting (file_path e utc_iso : String) (unix : Int)
    (fs : String → FileState) (alg : List Nat → String) :
    (notFoundMessage file_path ≠ ioErrorMessage e) ∧
    ((fs file_path).path_exists = false →
      calculate_content_hash file_path fs alg = (none, [notFoundMessage file_path])) ∧
    ((fs file_path).path_exists = true →
      (calculate_content_hash file_path fs alg).1 = none →
      (calculate_content_hash file_path fs alg).2
        = [ioErrorMessage ((fs file_path).errText)]) ∧
    ((calculate_content_hash file_path fs sha256hex).1 = none →
      run_ludi_verification file_path fs utc_iso unix = none) := by
  refine ⟨notFoundMessage_ne_ioErrorMessage file_path e, ?_, ?_, ?_⟩
  · intro h
    rw [calculate_content_hash, if_pos h]
  · intro hx hnone
    rw [calculate_content_hash, if_neg (by rw [hx]; simp)] at hnone ⊢
    cases hr : readLoop [] (fs file_path).content (fs file_path).failAt with
    | error u => rfl
    | ok data => rw [hr] at hnone; simp at hnone
  · intro hnone
    rw [run_ludi_verification, hnone]

/-- Claim C9, witness: the not-found diagnostic of a concrete failing run. -/
theorem C9_failure_reporting_witness :
    calculate_content_hash "ghost.txt" missingFS sha256hex
      = (none, [notFoundMessage "ghost.txt"]) :=
  (C9_failure_reporting "ghost.txt" "E" "T" 0 missingFS sha256hex).2.1 rfl

/-- Claim C10: for every digest string handed to it,
`simulate_blockchain_timestamp` returns a record whose `hash_algorithm` field
is the constant `"SHA-256"` and whose `blockchain_block` field is the constant
`"Simulated Block ID: 1A2B3C4D5E"` — the function never sees the
`hash_algorithm` selector of `calculate_content_hash`, so a caller that hashed
with any other algorithm still receives a record labelled SHA-256. -/
theorem C10_constant_fields (content_hash utc_iso : String) (unix : Int) :
    (simulate_blockchain_timestamp content_hash utc_iso unix).lookup "hash_algorithm"
      = some (JVal.s "SHA-256") ∧
    (simulate_blockchain_timestamp content_hash utc_iso unix).lookup "blockchain_block"
      = some (JVal.s "Simulated Block ID: 1A2B3C4D5E") :=
  ⟨rfl, rfl⟩

end LUDI
